import Mathlib

/-!
Verification of the fixture-ingestion core of Pyleet
(`pyleet/testcase_loader.py`): the generic value model, the recursive
reconstructor `_deserialize_recursive`, the entry normalizers
`process_test_cases` / `_parse_json_cases`, the annotated plain-text
dialect `_plain_text_input`, and the orchestrator `load_test_cases`.
-/

namespace Pyleet

/-- Generic Value: the nested data shape the parser emits and the
reconstructor walks. `int`/`str`/`bool`/`null` are the primitives,
`list`/`tuple` the ordered sequences (Python distinguishes them),
`dict` a keyed mapping (association list, textual order), and `obj`
a constructed native object (opaque to the reconstructor, which
returns non-container values unchanged). -/
inductive Value where
  | int : Int → Value
  | str : String → Value
  | bool : Bool → Value
  | null : Value
  | list : List Value → Value
  | tuple : List Value → Value
  | dict : List (String × Value) → Value
  | obj : String → Value → Value
deriving Repr

/-- The constructor registry interface (`get_deserializer`): maps a type
name to a one-argument constructor that may fail, or `none` when the
name is not registered. External collaborator; the core only queries it. -/
abbrev Registry := String → Option (Value → Except String Value)

/-- The error raised by `_deserialize_recursive` when a resolved
constructor raises: `ValueError(f"Error deserializing type '{key}' with
data '{data}': {e}") from e` — it carries the type tag, the raw
(pre-reconstruction) payload, and the underlying cause. -/
structure DErr where
  tag : String
  payload : Value
  cause : String
deriving Repr

mutual

/-- `_deserialize_recursive(item)`: recursively traverse data and apply
deserializers on one-key mappings whose key is registered; the payload is
deserialized before the constructor runs; a constructor failure is wrapped
in a `DErr` naming the tag and the raw payload; unresolved one-key
mappings and multi-key mappings recurse into their values; lists and
tuples recurse element-wise; everything else is returned as is. -/
def deserialize_recursive (reg : Registry) (item : Value) : Except DErr Value :=
  match item with
  | Value.dict [(key, data)] =>
    match reg key with
    | some deserializer =>
      match deserialize_recursive reg data with
      | Except.error e => Except.error e
      | Except.ok deserialized_data =>
        match deserializer deserialized_data with
        | Except.ok v => Except.ok v
        | Except.error e => Except.error ⟨key, data, e⟩
    | none =>
      match deserialize_recursive reg data with
      | Except.error e => Except.error e
      | Except.ok v => Except.ok (Value.dict [(key, v)])
  | Value.dict kvs =>
    match deserialize_dict reg kvs with
    | Except.error e => Except.error e
    | Except.ok kvs2 => Except.ok (Value.dict kvs2)
  | Value.list xs =>
    match deserialize_list reg xs with
    | Except.error e => Except.error e
    | Except.ok ys => Except.ok (Value.list ys)
  | Value.tuple xs =>
    match deserialize_list reg xs with
    | Except.error e => Except.error e
    | Except.ok ys => Except.ok (Value.tuple ys)
  | v => Except.ok v
termination_by structural item

/-- Element-wise reconstruction of a sequence (the list/tuple
comprehensions in `_deserialize_recursive`). -/
def deserialize_list (reg : Registry) (xs : List Value) : Except DErr (List Value) :=
  match xs with
  | [] => Except.ok []
  | x :: rest =>
    match deserialize_recursive reg x with
    | Except.error e => Except.error e
    | Except.ok y =>
      match deserialize_list reg rest with
      | Except.error e => Except.error e
      | Except.ok ys => Except.ok (y :: ys)
termination_by structural xs

/-- Value-wise reconstruction of a mapping (the dict comprehension in
`_deserialize_recursive`); keys unchanged. -/
def deserialize_dict (reg : Registry) (kvs : List (String × Value)) : Except DErr (List (String × Value)) :=
  match kvs with
  | [] => Except.ok []
  | (k, v) :: rest =>
    match deserialize_recursive reg v with
    | Except.error e => Except.error e
    | Except.ok w =>
      match deserialize_dict reg rest with
      | Except.error e => Except.error e
      | Except.ok ws => Except.ok ((k, w) :: ws)
termination_by structural kvs

end

/-- A registry with no registered type names. -/
def emptyRegistry : Registry := fun _ => none

mutual

/-- A Generic Value contains no one-key mapping whose key resolves in the
registry (the hypothesis of the pass-through property). -/
def no_tagged (reg : Registry) (v : Value) : Bool :=
  match v with
  | Value.dict [(key, data)] => (reg key).isNone && no_tagged reg data
  | Value.dict kvs => no_tagged_dict reg kvs
  | Value.list xs => no_tagged_list reg xs
  | Value.tuple xs => no_tagged_list reg xs
  | _ => true
termination_by structural v

/-- `no_tagged` over the elements of a sequence. -/
def no_tagged_list (reg : Registry) (xs : List Value) : Bool :=
  match xs with
  | [] => true
  | x :: rest => no_tagged reg x && no_tagged_list reg rest
termination_by structural xs

/-- `no_tagged` over the values of a mapping. -/
def no_tagged_dict (reg : Registry) (kvs : List (String × Value)) : Bool :=
  match kvs with
  | [] => true
  | (_, v) :: rest => no_tagged reg v && no_tagged_dict reg rest
termination_by structural kvs

end

/-- The tuple-wrapping block shared verbatim by `process_test_cases` and
`_parse_json_cases` ("Ensure input_args is a tuple for the runner"): a
tuple is kept, a list is converted to a tuple of the same elements, and
any other value is wrapped as a one-element tuple. -/
def normalize_input (v : Value) : Value :=
  match v with
  | Value.tuple xs => Value.tuple xs
  | Value.list xs => Value.tuple xs
  | w => Value.tuple [w]

/-- The `isinstance(x, (tuple, list))` test used by the wrapping block. -/
def is_seq (v : Value) : Bool :=
  match v with
  | Value.tuple _ => true
  | Value.list _ => true
  | _ => false

/-- Python dict lookup on the association-list model (first match). -/
def lookupKey (k : String) (kvs : List (String × Value)) : Option Value :=
  match kvs with
  | [] => none
  | (k2, v) :: rest => if k2 = k then some v else lookupKey k rest

/-- The errors (`FileNotFoundError` / `ValueError` / generic `Exception`)
raised by the loader pipeline. -/
inductive LoadErr where
  | fileNotFound
  | jsonNotList
  | processNotList
  | missingKeys (entry : Value)
  | badEntry (entry : Value)
  | deser (e : DErr)
  | invalidFile
deriving Repr

/-- Entry-shape dispatch of `process_test_cases`: a two-element tuple, a
dict with `input` and `expected` keys, or a two-element list; anything
else is rejected. -/
def extract_process_entry (entry : Value) : Except LoadErr (Value × Value) :=
  match entry with
  | Value.tuple [i, e] => Except.ok (i, e)
  | Value.dict kvs =>
    match lookupKey "input" kvs, lookupKey "expected" kvs with
    | some i, some e => Except.ok (i, e)
    | _, _ => Except.error (LoadErr.missingKeys (Value.dict kvs))
  | Value.list [i, e] => Except.ok (i, e)
  | e => Except.error (LoadErr.badEntry e)

/-- Entry-shape dispatch of `_parse_json_cases`: a dict with `input` and
`expected` keys, or a two-element list; anything else (tuples included)
is rejected. -/
def extract_json_entry (entry : Value) : Except LoadErr (Value × Value) :=
  match entry with
  | Value.dict kvs =>
    match lookupKey "input" kvs, lookupKey "expected" kvs with
    | some i, some e => Except.ok (i, e)
    | _, _ => Except.error (LoadErr.missingKeys (Value.dict kvs))
  | Value.list [i, e] => Except.ok (i, e)
  | e => Except.error (LoadErr.badEntry e)

/-- The per-entry loop body shared by `process_test_cases` and
`_parse_json_cases` after shape dispatch: deserialize input and expected,
wrap the input as a tuple, and append `(input_tuple, expected)`. -/
def build_case (reg : Registry) (extracted : Value × Value) : Except LoadErr Value :=
  match deserialize_recursive reg extracted.1 with
  | Except.error e => Except.error (LoadErr.deser e)
  | Except.ok di =>
    match deserialize_recursive reg extracted.2 with
    | Except.error e => Except.error (LoadErr.deser e)
    | Except.ok de => Except.ok (Value.tuple [normalize_input di, de])

/-- The `for entry in testcases` loop of `process_test_cases` (fail-fast,
appending in order). -/
def process_entries (reg : Registry) (entries : List Value) : Except LoadErr (List Value) :=
  match entries with
  | [] => Except.ok []
  | entry :: rest =>
    match extract_process_entry entry with
    | Except.error e => Except.error e
    | Except.ok ie =>
      match build_case reg ie with
      | Except.error e => Except.error e
      | Except.ok c =>
        match process_entries reg rest with
        | Except.error e => Except.error e
        | Except.ok cs => Except.ok (c :: cs)

/-- `process_test_cases(testcases)`: requires a list, then normalizes and
deserializes each entry into a canonical `(input_tuple, expected)` case. -/
def process_test_cases (reg : Registry) (testcases : Value) : Except LoadErr (List Value) :=
  match testcases with
  | Value.list entries => process_entries reg entries
  | _ => Except.error LoadErr.processNotList

/-- The `for entry in data` loop of `_parse_json_cases`. -/
def parse_json_entries (reg : Registry) (entries : List Value) : Except LoadErr (List Value) :=
  match entries with
  | [] => Except.ok []
  | entry :: rest =>
    match extract_json_entry entry with
    | Except.error e => Except.error e
    | Except.ok ie =>
      match build_case reg ie with
      | Except.error e => Except.error e
      | Except.ok c =>
        match parse_json_entries reg rest with
        | Except.error e => Except.error e
        | Except.ok cs => Except.ok (c :: cs)

/-- `_parse_json_cases(data)`: requires a top-level list ("JSON test case
file must contain a list of test cases"), then processes each entry. -/
def parse_json_cases (reg : Registry) (data : Value) : Except LoadErr (List Value) :=
  match data with
  | Value.list entries => parse_json_entries reg entries
  | _ => Except.error LoadErr.jsonNotList

/-- Whitespace characters stripped by Python `str.strip()` (the ones that
occur in fixture files). -/
def isPySpace (c : Char) : Bool :=
  c == ' ' || c == '\n' || c == '\t' || c == '\r'

/-- Drop leading whitespace from a character list. -/
def dropSpaces (cs : List Char) : List Char :=
  match cs with
  | [] => []
  | c :: rest => if isPySpace c then dropSpaces rest else c :: rest

/-- Python `str.strip()`: drop whitespace from both ends. -/
def pyStrip (s : String) : String :=
  String.mk (dropSpaces (dropSpaces s.data.reverse).reverse)

/-- Does `pat` match at the head of `cs`? -/
def leadMatch (pat cs : List Char) : Bool :=
  match pat, cs with
  | [], _ => true
  | _ :: _, [] => false
  | p :: ps, c :: rest => p == c && leadMatch ps rest

/-- Fuel-driven worker for Python `str.split(sep)` with a non-empty
separator: non-overlapping left-to-right splits, empty pieces kept. -/
def splitSubF (sep : List Char) (fuel : Nat) (cs acc : List Char) : List (List Char) :=
  match fuel, cs with
  | 0, rest => [acc.reverse ++ rest]
  | _ + 1, [] => [acc.reverse]
  | fuel + 1, c :: rest =>
    if leadMatch sep (c :: rest) then
      acc.reverse :: splitSubF sep fuel (List.drop sep.length (c :: rest)) []
    else
      splitSubF sep fuel rest (c :: acc)

/-- Python `str.split(sep)` for a non-empty separator. -/
def pySplit (sep s : String) : List String :=
  (splitSubF sep.data (s.data.length + 1) s.data []).map String.mk

/-- Python `str.splitlines()` on `\n`-separated text: like splitting on
`\n` but without a trailing empty piece. -/
def pySplitlines (s : String) : List String :=
  let parts := pySplit "\n" s
  match parts.reverse with
  | "" :: rest => rest.reverse
  | _ => parts

/-- Python `sub in s` substring containment. -/
def containsSub (pat cs : List Char) : Bool :=
  match cs with
  | [] => leadMatch pat []
  | c :: rest => leadMatch pat (c :: rest) || containsSub pat rest

/-- Python `sub in s` on strings. -/
def pyContains (s sub : String) : Bool :=
  containsSub sub.data s.data

/-- The interface of the external JSON library: `json.loads` either
returns a parsed document or raises a `JSONDecodeError`. -/
abbrev JsonLoads := String → Except Unit Value

/-- Skip JSON whitespace. -/
def skipWs (cs : List Char) : List Char :=
  match cs with
  | [] => []
  | c :: rest => if isPySpace c then skipWs rest else c :: rest

/-- Accumulate leading decimal digits. -/
def takeDigits (cs : List Char) (acc : Nat) (seen : Bool) : Option (Nat × List Char) :=
  match cs with
  | [] => if seen then some (acc, []) else none
  | c :: rest =>
    if c.isDigit then takeDigits rest (acc * 10 + (c.toNat - 48)) true
    else if seen then some (acc, c :: rest) else none

/-- Body of a JSON string literal (escape-free fragment): characters up
to the closing quote. -/
def takeStrBody (cs : List Char) : Option (List Char × List Char) :=
  match cs with
  | [] => none
  | c :: rest =>
    if c == '"' then some ([], rest)
    else if c == '\\' then none
    else
      match takeStrBody rest with
      | some (body, rem) => some (c :: body, rem)
      | none => none

mutual

/-- Recursive-descent JSON value parser (fuel-driven): null, booleans,
integers, escape-free strings, arrays, and objects — the fragment of
`json.loads` exercised by the fixture dialects. Models the external JSON
library. -/
def parseValueF (fuel : Nat) (cs : List Char) : Option (Value × List Char) :=
  match fuel with
  | 0 => none
  | fuel + 1 =>
    match skipWs cs with
    | [] => none
    | c :: rest =>
      if leadMatch ['n', 'u', 'l', 'l'] (c :: rest) then
        some (Value.null, List.drop 4 (c :: rest))
      else if leadMatch ['t', 'r', 'u', 'e'] (c :: rest) then
        some (Value.bool true, List.drop 4 (c :: rest))
      else if leadMatch ['f', 'a', 'l', 's', 'e'] (c :: rest) then
        some (Value.bool false, List.drop 5 (c :: rest))
      else if c == '"' then
        match takeStrBody rest with
        | some (body, rem) => some (Value.str (String.mk body), rem)
        | none => none
      else if c == '-' then
        match takeDigits rest 0 false with
        | some (n, rem) => some (Value.int (-(n : Int)), rem)
        | none => none
      else if c.isDigit then
        match takeDigits (c :: rest) 0 false with
        | some (n, rem) => some (Value.int (n : Int), rem)
        | none => none
      else if c == '[' then
        match skipWs rest with
        | ']' :: rem => some (Value.list [], rem)
        | other =>
          match parseArrayItemsF fuel other with
          | some (items, rem) => some (Value.list items, rem)
          | none => none
      else if c == '\x7b' then
        match skipWs rest with
        | '\x7d' :: rem => some (Value.dict [], rem)
        | other =>
          match parseObjectItemsF fuel other with
          | some (kvs, rem) => some (Value.dict kvs, rem)
          | none => none
      else none

/-- Comma-separated array items up to `]`. -/
def parseArrayItemsF (fuel : Nat) (cs : List Char) : Option (List Value × List Char) :=
  match fuel with
  | 0 => none
  | fuel + 1 =>
    match parseValueF fuel cs with
    | none => none
    | some (v, rem) =>
      match skipWs rem with
      | ']' :: rem2 => some ([v], rem2)
      | ',' :: rem2 =>
        match parseArrayItemsF fuel rem2 with
        | some (vs, rem3) => some (v :: vs, rem3)
        | none => none
      | _ => none

/-- Comma-separated `"key": value` object items up to the closing brace. -/
def parseObjectItemsF (fuel : Nat) (cs : List Char) : Option (List (String × Value) × List Char) :=
  match fuel with
  | 0 => none
  | fuel + 1 =>
    match skipWs cs with
    | '"' :: rest =>
      match takeStrBody rest with
      | none => none
      | some (key, rem) =>
        match skipWs rem with
        | ':' :: rem2 =>
          match parseValueF fuel rem2 with
          | none => none
          | some (v, rem3) =>
            match skipWs rem3 with
            | '\x7d' :: rem4 => some ([(String.mk key, v)], rem4)
            | ',' :: rem4 =>
              match parseObjectItemsF fuel rem4 with
              | some (kvs, rem5) => some ((String.mk key, v) :: kvs, rem5)
              | none => none
            | _ => none
        | _ => none
    | _ => none

end

/-- Concrete model of `json.loads` built from `parseValueF`: parse one
document and require only whitespace after it. -/
def json_model : JsonLoads := fun s =>
  match parseValueF (2 * s.length + 8) s.data with
  | some (v, rest) => if (skipWs rest).isEmpty then Except.ok v else Except.error ()
  | none => Except.error ()

/-- The exceptions that can escape `_plain_text_input`: a data line that
is not valid JSON (`json.JSONDecodeError`), a data line met while no
accumulator is active (`AttributeError` on `None.append`), and an empty
output section (`IndexError` on `output[0]`). -/
inductive PErr where
  | lineJson (ln : String)
  | noAccum (ln : String)
  | emptyOutput
deriving Repr

/-- The line loop of `_plain_text_input` over one block: a line containing
`input:` activates the input accumulator, a line containing `output:`
activates the output accumulator (marker lines consumed), and every other
line is parsed as JSON and appended to the active accumulator. Python
evaluates `json.loads(ln)` before `res.append`, so a JSON error on a data
line wins over the missing-accumulator error. -/
def pti_lines (jl : JsonLoads) (lines : List String) (inAcc outAcc : List Value)
    (res : Option Bool) : Except PErr (List Value × List Value) :=
  match lines with
  | [] => Except.ok (inAcc, outAcc)
  | ln :: rest =>
    if pyContains ln "input:" then
      pti_lines jl rest inAcc outAcc (some true)
    else if pyContains ln "output:" then
      pti_lines jl rest inAcc outAcc (some false)
    else
      match jl ln with
      | Except.error _ => Except.error (PErr.lineJson ln)
      | Except.ok v =>
        match res with
        | none => Except.error (PErr.noAccum ln)
        | some true => pti_lines jl rest (inAcc ++ [v]) outAcc res
        | some false => pti_lines jl rest inAcc (outAcc ++ [v]) res

/-- The block loop of `_plain_text_input`: one `(input, output)`
accumulator pair per blank-line-separated block. -/
def pti_blocks (jl : JsonLoads) (blocks : List String) : Except PErr (List (List Value × List Value)) :=
  match blocks with
  | [] => Except.ok []
  | raw :: rest =>
    match pti_lines jl (pySplitlines raw) [] [] none with
    | Except.error e => Except.error e
    | Except.ok p =>
      match pti_blocks jl rest with
      | Except.error e => Except.error e
      | Except.ok ps => Except.ok (p :: ps)

/-- The final comprehension of `_plain_text_input`:
`[[input, output[0]] for [input, output] in _cases]` — `output[0]` raises
`IndexError` on an empty output section. Note the produced cases are
two-element *lists* whose first element is the raw input *list*: no
tuple-wrapping and no deserialization happen on this path. -/
def pti_finalize (cases : List (List Value × List Value)) : Except PErr (List Value) :=
  match cases with
  | [] => Except.ok []
  | (inp, out) :: rest =>
    match out with
    | [] => Except.error PErr.emptyOutput
    | o :: _ =>
      match pti_finalize rest with
      | Except.error e => Except.error e
      | Except.ok vs => Except.ok (Value.list [Value.list inp, o] :: vs)

/-- `_plain_text_input(content)`: the annotated (leetgo `testcases.txt`)
block dialect — split on blank lines, route lines into input/output
accumulators, keep only the first output value per block. -/
def plain_text_input (jl : JsonLoads) (content : String) : Except PErr (List Value) :=
  match pti_blocks jl (pySplit "\n\n" content) with
  | Except.error e => Except.error e
  | Except.ok cases => pti_finalize cases

/-- Rendering of the traceback `traceback.print_exc()` writes to standard
error when the annotated-dialect fallback raises. -/
def renderPErr (e : PErr) : String :=
  match e with
  | PErr.lineJson ln => "Traceback: json.decoder.JSONDecodeError on line: " ++ ln
  | PErr.noAccum ln => "Traceback: AttributeError on line: " ++ ln
  | PErr.emptyOutput => "Traceback: IndexError: list index out of range"

/-- The observable outcome of one `load_test_cases` call: the returned
value or raised exception, plus everything printed to standard error. -/
structure LoadOutcome where
  result : Except LoadErr (List Value)
  stderrOut : List String
deriving Repr

/-- `load_test_cases(file_path)`: missing file raises `FileNotFoundError`;
otherwise the stripped content is tried as JSON first (`_parse_json_cases`
on success — its errors propagate, only a `JSONDecodeError` falls
through), then as the annotated plain-text dialect, whose failure prints
the traceback to stderr and raises the generic "Invalid file" error.
The file system is modelled as an optional content string. -/
def load_test_cases (json_loads : JsonLoads) (reg : Registry) (file : Option String) : LoadOutcome :=
  match file with
  | none => ⟨Except.error LoadErr.fileNotFound, []⟩
  | some raw =>
    let content := pyStrip raw
    match json_loads content with
    | Except.ok data => ⟨parse_json_cases reg data, []⟩
    | Except.error _ =>
      match plain_text_input json_loads content with
      | Except.ok cases => ⟨Except.ok cases, []⟩
      | Except.error e => ⟨Except.error LoadErr.invalidFile, [renderPErr e]⟩

/-! ## Helper lemmas -/

mutual

/-- Pass-through identity on values with no resolvable tag. -/
theorem deser_id (reg : Registry) (v : Value) (h : no_tagged reg v = true) :
    deserialize_recursive reg v = Except.ok v := by
  match v with
  | Value.int _ => rfl
  | Value.str _ => rfl
  | Value.bool _ => rfl
  | Value.null => rfl
  | Value.obj _ _ => rfl
  | Value.list xs =>
    rw [no_tagged] at h
    rw [deserialize_recursive, deser_id_list reg xs h]
  | Value.tuple xs =>
    rw [no_tagged] at h
    rw [deserialize_recursive, deser_id_list reg xs h]
  | Value.dict [] => rfl
  | Value.dict [(key, data)] =>
    rw [no_tagged, Bool.and_eq_true, Option.isNone_iff_eq_none] at h
    rw [deserialize_recursive, h.1, deser_id reg data h.2]
  | Value.dict ((k1, v1) :: (k2, v2) :: rest) =>
    simp only [no_tagged] at h
    simp only [deserialize_recursive, deser_id_dict reg ((k1, v1) :: (k2, v2) :: rest) h]

/-- Pass-through identity, element-wise. -/
theorem deser_id_list (reg : Registry) (xs : List Value) (h : no_tagged_list reg xs = true) :
    deserialize_list reg xs = Except.ok xs := by
  match xs with
  | [] => rfl
  | x :: rest =>
    rw [no_tagged_list, Bool.and_eq_true] at h
    rw [deserialize_list, deser_id reg x h.1, deser_id_list reg rest h.2]

/-- Pass-through identity, mapping-value-wise. -/
theorem deser_id_dict (reg : Registry) (kvs : List (String × Value)) (h : no_tagged_dict reg kvs = true) :
    deserialize_dict reg kvs = Except.ok kvs := by
  match kvs with
  | [] => rfl
  | (k, v) :: rest =>
    rw [no_tagged_dict, Bool.and_eq_true] at h
    rw [deserialize_dict, deser_id reg v h.1, deser_id_dict reg rest h.2]

end

/-- One-step unfolding of `deserialize_recursive` on a one-key mapping. -/
theorem deser_one_key (reg : Registry) (k : String) (p : Value) :
    deserialize_recursive reg (Value.dict [(k, p)]) =
      match reg k with
      | some deserializer =>
        match deserialize_recursive reg p with
        | Except.error e => Except.error e
        | Except.ok dd =>
          match deserializer dd with
          | Except.ok v => Except.ok v
          | Except.error e => Except.error ⟨k, p, e⟩
      | none =>
        match deserialize_recursive reg p with
        | Except.error e => Except.error e
        | Except.ok v => Except.ok (Value.dict [(k, v)]) := by
  simp only [deserialize_recursive]

/-- `normalize_input` always returns a tuple. -/
theorem normalize_input_tuple (v : Value) : ∃ ts, normalize_input v = Value.tuple ts := by
  cases v <;> exact ⟨_, rfl⟩

/-- Every case built by the shared loop body is a pair whose input side
is a tuple. -/
theorem build_case_shape (reg : Registry) (ie : Value × Value) (c : Value)
    (h : build_case reg ie = Except.ok c) : ∃ ts e, c = Value.tuple [Value.tuple ts, e] := by
  unfold build_case at h
  cases h1 : deserialize_recursive reg ie.1 with
  | error e => rw [h1] at h; exact Except.noConfusion h
  | ok di =>
    rw [h1] at h
    cases h2 : deserialize_recursive reg ie.2 with
    | error e => rw [h2] at h; exact Except.noConfusion h
    | ok de =>
      rw [h2] at h
      obtain ⟨ts, hts⟩ := normalize_input_tuple di
      refine ⟨ts, de, ?_⟩
      rw [← Except.ok.inj h, hts]

/-- Every case produced by the `process_test_cases` loop is a pair whose
input side is a tuple. -/
theorem process_entries_shape (reg : Registry) (entries : List Value) (cases : List Value)
    (h : process_entries reg entries = Except.ok cases) :
    ∀ c ∈ cases, ∃ ts e, c = Value.tuple [Value.tuple ts, e] := by
  induction entries generalizing cases with
  | nil =>
    unfold process_entries at h
    cases h
    intro c hc
    exact absurd hc (List.not_mem_nil c)
  | cons entry rest ih =>
    unfold process_entries at h
    split at h
    · exact Except.noConfusion h
    · rename_i ie hx
      split at h
      · exact Except.noConfusion h
      · rename_i c0 hb
        split at h
        · exact Except.noConfusion h
        · rename_i cs hr
          have hcases : c0 :: cs = cases := Except.ok.inj h
          intro c hc
          rw [← hcases] at hc
          rcases List.mem_cons.mp hc with hc0 | hcs
          · rw [hc0]; exact build_case_shape reg ie c0 hb
          · exact ih cs hr c hcs

/-- Every case produced by the `_parse_json_cases` loop is a pair whose
input side is a tuple. -/
theorem parse_json_entries_shape (reg : Registry) (entries : List Value) (cases : List Value)
    (h : parse_json_entries reg entries = Except.ok cases) :
    ∀ c ∈ cases, ∃ ts e, c = Value.tuple [Value.tuple ts, e] := by
  induction entries generalizing cases with
  | nil =>
    unfold parse_json_entries at h
    cases h
    intro c hc
    exact absurd hc (List.not_mem_nil c)
  | cons entry rest ih =>
    unfold parse_json_entries at h
    split at h
    · exact Except.noConfusion h
    · rename_i ie hx
      split at h
      · exact Except.noConfusion h
      · rename_i c0 hb
        split at h
        · exact Except.noConfusion h
        · rename_i cs hr
          have hcases : c0 :: cs = cases := Except.ok.inj h
          intro c hc
          rw [← hcases] at hc
          rcases List.mem_cons.mp hc with hc0 | hcs
          · rw [hc0]; exact build_case_shape reg ie c0 hb
          · exact ih cs hr c hcs

/-- Sample constructor for witnesses: builds an opaque native object. -/
def nodeCtor : Value → Except String Value := fun v => Except.ok (Value.obj "Node" v)

/-- Sample registry registering only the type name `Node`. -/
def nodeRegistry : Registry := fun s => if s = "Node" then some nodeCtor else none

/-- Sample constructor that always raises, for witnesses. -/
def failCtor : Value → Except String Value := fun _ => Except.error "boom"

/-- Sample registry whose only constructor always raises. -/
def failRegistry : Registry := fun s => if s = "Bad" then some failCtor else none

/-- The invariant asserted by claim C2: every canonical case has an
input-tuple of length at least one. -/
def input_tuple_min1 (cases : List Value) : Prop :=
  ∀ c ∈ cases, ∃ x xs e, c = Value.tuple [Value.tuple (x :: xs), e]

/-! ## Claim theorems -/

/-- Claim C3: for every registered type name `T` with constructor `C` and
payload `p`, reconstructing `{T: p}` fully reconstructs `p` and then
applies `C`, so `reconstruct({T: p}) = C(reconstruct(p))`; nesting
composes: `reconstruct({T: {T: p}}) = C(C(reconstruct(p)))` (stated with
the successful results of each step as explicit hypotheses). -/
theorem claim_c3 (reg : Registry) (T : String) (C : Value → Except String Value)
    (p p1 v1 v2 : Value) (hT : reg T = some C)
    (hp : deserialize_recursive reg p = Except.ok p1)
    (h1 : C p1 = Except.ok v1) (h2 : C v1 = Except.ok v2) :
    deserialize_recursive reg (Value.dict [(T, p)]) = Except.ok v1
    ∧ deserialize_recursive reg (Value.dict [(T, Value.dict [(T, p)])]) = Except.ok v2 := by
  have e1 : deserialize_recursive reg (Value.dict [(T, p)]) = Except.ok v1 := by
    simp only [deserialize_recursive, hT, hp, h1]
  refine ⟨e1, ?_⟩
  rw [deser_one_key, hT, e1]
  simp only [h2]

/-- Witness for claim C3 at the registry `{Node ↦ nodeCtor}` and payload `1`. -/
theorem claim_c3_witness :
    deserialize_recursive nodeRegistry (Value.dict [("Node", Value.int 1)])
      = Except.ok (Value.obj "Node" (Value.int 1))
    ∧ deserialize_recursive nodeRegistry (Value.dict [("Node", Value.dict [("Node", Value.int 1)])])
      = Except.ok (Value.obj "Node" (Value.obj "Node" (Value.int 1))) :=
  claim_c3 nodeRegistry "Node" nodeCtor (Value.int 1) (Value.int 1)
    (Value.obj "Node" (Value.int 1)) (Value.obj "Node" (Value.obj "Node" (Value.int 1)))
    rfl rfl rfl rfl

/-- Claim C4: reconstruction is the identity on every generic value
containing no one-key mapping whose key resolves in the constructor
registry (sequence order, length and tuple-ness are preserved since the
output equals the input). -/
theorem claim_c4 (reg : Registry) (v : Value) (h : no_tagged reg v = true) :
    deserialize_recursive reg v = Except.ok v :=
  deser_id reg v h

/-- Witness for claim C4 on a nested untagged value. -/
theorem claim_c4_witness :
    no_tagged emptyRegistry (Value.dict [("a", Value.list [Value.int 1, Value.tuple [Value.str "s"]])]) = true
    ∧ deserialize_recursive emptyRegistry
        (Value.dict [("a", Value.list [Value.int 1, Value.tuple [Value.str "s"]])])
      = Except.ok (Value.dict [("a", Value.list [Value.int 1, Value.tuple [Value.str "s"]])]) :=
  ⟨rfl, claim_c4 emptyRegistry (Value.dict [("a", Value.list [Value.int 1, Value.tuple [Value.str "s"]])]) rfl⟩

/-- Claim C6: a one-key mapping whose key is not registered is treated as
an ordinary mapping: the result is a one-entry mapping with the same key
and the recursively reconstructed value, not an error. -/
theorem claim_c6 (reg : Registry) (k : String) (p p1 : Value) (hk : reg k = none)
    (hp : deserialize_recursive reg p = Except.ok p1) :
    deserialize_recursive reg (Value.dict [(k, p)]) = Except.ok (Value.dict [(k, p1)]) := by
  simp only [deserialize_recursive, hk, hp]

/-- Witness for claim C6: the spec example `reconstruct({"Bogus": 5}) =
{"Bogus": 5}` with no constructor registered for `Bogus`. -/
theorem claim_c6_witness :
    deserialize_recursive emptyRegistry (Value.dict [("Bogus", Value.int 5)])
      = Except.ok (Value.dict [("Bogus", Value.int 5)]) :=
  claim_c6 emptyRegistry "Bogus" (Value.int 5) (Value.int 5) rfl rfl

/-- Claim C7: when the resolved constructor raises, reconstruction of
`{T: p}` fails with an error naming the type tag `T` and the raw
(pre-reconstruction) payload `p`, and carrying the underlying constructor
exception as its cause. -/
theorem claim_c7 (reg : Registry) (T : String) (C : Value → Except String Value)
    (p p1 : Value) (msg : String) (hT : reg T = some C)
    (hp : deserialize_recursive reg p = Except.ok p1)
    (hC : C p1 = Except.error msg) :
    deserialize_recursive reg (Value.dict [(T, p)]) = Except.error ⟨T, p, msg⟩ := by
  simp only [deserialize_recursive, hT, hp, hC]

/-- Witness for claim C7 at an always-raising constructor. -/
theorem claim_c7_witness :
    deserialize_recursive failRegistry (Value.dict [("Bad", Value.int 7)])
      = Except.error ⟨"Bad", Value.int 7, "boom"⟩ :=
  claim_c7 failRegistry "Bad" failCtor (Value.int 7) (Value.int 7) "boom" rfl rfl rfl

/-- Claim C8: after reconstruction the input side is wrapped — a
non-sequence value becomes a one-element tuple, a list becomes a tuple of
the same elements in order — and `process_test_cases` applies exactly
this wrapping to the reconstructed input of an entry. -/
theorem claim_c8 :
    (∀ v : Value, is_seq v = false → normalize_input v = Value.tuple [v])
    ∧ (∀ xs : List Value, normalize_input (Value.list xs) = Value.tuple xs)
    ∧ (∀ (reg : Registry) (i e di de : Value),
        deserialize_recursive reg i = Except.ok di →
        deserialize_recursive reg e = Except.ok de →
        process_test_cases reg (Value.list [Value.tuple [i, e]])
          = Except.ok [Value.tuple [normalize_input di, de]]) := by
  refine ⟨?_, fun xs => rfl, ?_⟩
  · intro v hv
    cases v <;> first | rfl | exact absurd hv (by simp [is_seq])
  · intro reg i e di de hi he
    simp only [process_test_cases, process_entries, extract_process_entry, build_case, hi, he]

/-- Witness for claim C8: `normalize_input(5) = (5,)`,
`normalize_input([1,2]) = (1,2)`, and one entry processed end to end. -/
theorem claim_c8_witness :
    normalize_input (Value.int 5) = Value.tuple [Value.int 5]
    ∧ normalize_input (Value.list [Value.int 1, Value.int 2])
        = Value.tuple [Value.int 1, Value.int 2]
    ∧ process_test_cases emptyRegistry (Value.list [Value.tuple [Value.int 5, Value.int 3]])
        = Except.ok [Value.tuple [Value.tuple [Value.int 5], Value.int 3]] :=
  ⟨claim_c8.1 (Value.int 5) rfl, claim_c8.2.1 [Value.int 1, Value.int 2],
   claim_c8.2.2 emptyRegistry (Value.int 5) (Value.int 3) (Value.int 5) (Value.int 3) rfl rfl⟩

/-- Claim C2 counterexample: the entry `[[], 3]` (input field an empty
list) is accepted by `process_test_cases` and yields the canonical case
`((), 3)` whose input-tuple has length 0, refuting the claimed length ≥ 1
invariant "including when the input field is an empty list". -/
theorem claim_c2_counterexample :
    process_test_cases emptyRegistry (Value.list [Value.list [Value.list [], Value.int 3]])
      = Except.ok [Value.tuple [Value.tuple [], Value.int 3]]
    ∧ ¬ input_tuple_min1 [Value.tuple [Value.tuple [], Value.int 3]] := by
  refine ⟨rfl, ?_⟩
  intro hmin
  obtain ⟨x, xs, e, heq⟩ :=
    hmin (Value.tuple [Value.tuple [], Value.int 3]) (List.mem_singleton.mpr rfl)
  simp at heq

/-- Claim C2 amended: every canonical case produced by
`process_test_cases` or `_parse_json_cases` has a tuple on its input
side, and the wrapping yields a tuple of length ≥ 1 whenever the
reconstructed input is neither the empty list nor the empty tuple (an
empty sequence input yields the empty input-tuple). -/
theorem claim_c2_amended :
    (∀ v : Value, v ≠ Value.list [] → v ≠ Value.tuple [] →
      ∃ x xs, normalize_input v = Value.tuple (x :: xs))
    ∧ (∀ (reg : Registry) (tcs : Value) (cases : List Value),
        process_test_cases reg tcs = Except.ok cases →
        ∀ c ∈ cases, ∃ ts e, c = Value.tuple [Value.tuple ts, e])
    ∧ (∀ (reg : Registry) (data : Value) (cases : List Value),
        parse_json_cases reg data = Except.ok cases →
        ∀ c ∈ cases, ∃ ts e, c = Value.tuple [Value.tuple ts, e]) := by
  refine ⟨?_, ?_, ?_⟩
  · intro v h1 h2
    match v with
    | Value.list [] => exact absurd rfl h1
    | Value.tuple [] => exact absurd rfl h2
    | Value.list (x :: xs) => exact ⟨x, xs, rfl⟩
    | Value.tuple (x :: xs) => exact ⟨x, xs, rfl⟩
    | Value.int n => exact ⟨Value.int n, [], rfl⟩
    | Value.str s => exact ⟨Value.str s, [], rfl⟩
    | Value.bool b => exact ⟨Value.bool b, [], rfl⟩
    | Value.null => exact ⟨Value.null, [], rfl⟩
    | Value.dict kvs => exact ⟨Value.dict kvs, [], rfl⟩
    | Value.obj s w => exact ⟨Value.obj s w, [], rfl⟩
  · intro reg tcs cases h
    cases tcs with
    | list entries => exact process_entries_shape reg entries cases h
    | int n => exact Except.noConfusion h
    | str s => exact Except.noConfusion h
    | bool b => exact Except.noConfusion h
    | null => exact Except.noConfusion h
    | tuple xs => exact Except.noConfusion h
    | dict kvs => exact Except.noConfusion h
    | obj s w => exact Except.noConfusion h
  · intro reg data cases h
    cases data with
    | list entries => exact parse_json_entries_shape reg entries cases h
    | int n => exact Except.noConfusion h
    | str s => exact Except.noConfusion h
    | bool b => exact Except.noConfusion h
    | null => exact Except.noConfusion h
    | tuple xs => exact Except.noConfusion h
    | dict kvs => exact Except.noConfusion h
    | obj s w => exact Except.noConfusion h

/-- Witness for the amended claim C2 at the scalar input `7`. -/
theorem claim_c2_amended_witness :
    ∃ x xs, normalize_input (Value.int 7) = Value.tuple (x :: xs) :=
  claim_c2_amended.1 (Value.int 7) (fun h => Value.noConfusion h) (fun h => Value.noConfusion h)

/-- Claim C5: if the text parses as a structured document whose top-level
value is not a list, the loader raises the hard "must contain a list"
error without falling through to the annotated dialect, and in general a
successful structured parse means the outcome comes entirely from
`_parse_json_cases` (so the fallback runs only on a parse error). -/
theorem claim_c5 (jl : JsonLoads) (reg : Registry) (raw : String) (v : Value)
    (hparse : jl (pyStrip raw) = Except.ok v) (hnl : ∀ xs, v ≠ Value.list xs) :
    load_test_cases jl reg (some raw) = ⟨Except.error LoadErr.jsonNotList, []⟩
    ∧ load_test_cases jl reg (some raw) = ⟨parse_json_cases reg v, []⟩ := by
  have e2 : load_test_cases jl reg (some raw) = ⟨parse_json_cases reg v, []⟩ := by
    simp only [load_test_cases, hparse]
  refine ⟨?_, e2⟩
  rw [e2]
  unfold parse_json_cases
  cases v <;> try rfl
  exact absurd rfl (hnl _)

/-- Witness for claim C5: the file content `5` parses as JSON but is not
a list. -/
theorem claim_c5_witness :
    load_test_cases json_model emptyRegistry (some "5")
      = ⟨Except.error LoadErr.jsonNotList, []⟩ :=
  (claim_c5 json_model emptyRegistry "5" (Value.int 5) rfl (fun _ h => Value.noConfusion h)).1

/-- Claim C9 counterexample: on the fixture content `x` (no dialect
parses it) the core loader prints a traceback to standard error before
raising, refuting "never prints to standard output or standard error". -/
theorem claim_c9_counterexample :
    (load_test_cases json_model emptyRegistry (some "x")).stderrOut
      = [renderPErr (PErr.lineJson "x")]
    ∧ (load_test_cases json_model emptyRegistry (some "x")).stderrOut ≠ [] :=
  ⟨rfl, fun h => List.noConfusion h⟩

/-- Claim C9 amended: the loader surfaces all failures by raising and
never prints, except that when the annotated-dialect fallback fails it
prints the exception traceback to standard error and then raises the
generic invalid-file error: any run with non-empty stderr output is a run
that raised `Invalid file`. -/
theorem claim_c9_amended (jl : JsonLoads) (reg : Registry) (file : Option String) :
    (load_test_cases jl reg file).stderrOut = []
    ∨ (load_test_cases jl reg file).result = Except.error LoadErr.invalidFile := by
  cases file with
  | none => exact Or.inl rfl
  | some raw =>
    simp only [load_test_cases]
    split
    · exact Or.inl rfl
    · split
      · exact Or.inl rfl
      · exact Or.inr rfl

/-- Claim C1 (code-bug evaluation): the annotated fixture
`input:/1/2/output:/3` loads to the raw two-element *list*
`[[1,2], 3]` — no tuple wrapping, no normalization — while the
semantically identical structured fixture `[{"input":[1,2],"expected":3}]`
loads to the canonical case `((1,2), 3)`; the two results differ,
contradicting both the equivalence claim and the loader docstring
("Returns: list of tuples"). -/
theorem claim_c1_eval :
    (load_test_cases json_model emptyRegistry (some "input:\n1\n2\noutput:\n3")).result
      = Except.ok [Value.list [Value.list [Value.int 1, Value.int 2], Value.int 3]]
    ∧ (load_test_cases json_model emptyRegistry
        (some "[\x7b\"input\": [1, 2], \"expected\": 3\x7d]")).result
      = Except.ok [Value.tuple [Value.tuple [Value.int 1, Value.int 2], Value.int 3]]
    ∧ (Value.list [Value.list [Value.int 1, Value.int 2], Value.int 3]
        ≠ Value.tuple [Value.tuple [Value.int 1, Value.int 2], Value.int 3]) :=
  ⟨rfl, rfl, fun h => Value.noConfusion h⟩

/-- Claim C10: an existing but whitespace-only fixture file makes
`load_test_cases` raise the generic invalid-file error (the empty content
is not JSON, and the annotated fallback dies on `output[0]` of the empty
block), rather than returning an empty case list. -/
theorem claim_c10 :
    load_test_cases json_model emptyRegistry (some "  \n ")
      = ⟨Except.error LoadErr.invalidFile, [renderPErr PErr.emptyOutput]⟩
    ∧ (load_test_cases json_model emptyRegistry (some "  \n ")).result ≠ Except.ok [] :=
  ⟨rfl, fun h => Except.noConfusion h⟩

end Pyleet
